import Mathlib

/-!
Verification of the recipe-suggestion orchestration engine of the
food-expiry-tracker repository, as implemented in the Supabase edge function
`supabase/functions/ai-recipe-suggestions` (`index.ts`, `helpers.ts`,
`cache.ts`, `openai.ts`, `notifications.ts`).

The TypeScript code is shallowly embedded: pure helpers become Lean
functions; the stateful request handlers become pure functions over an
explicit environment record holding the responses the code would receive
from its collaborators (database, AI provider, push and email transports),
returning the HTTP-level response together with an effect trace (cache
lookups, AI calls, cache stores, delivery attempts, ledger inserts).
Machine integers are Nat with explicit reduction modulo 2^32 where the
source relies on 32-bit wraparound (the SHA-256 digest).

JavaScript string primitives (trim, toLowerCase, code-unit comparison,
startsWith) are embedded as executable Lean functions over the underlying
character lists, since the ingredient names in play are ordinary text.
-/

/-- A food item row as selected by the edge function
(`id, name, expiry_date, category, user_id`), from `types.ts`. -/
structure FoodItem where
  id : String
  name : String
  expiry_date : String
  category : String
  user_id : String
deriving DecidableEq

/-- A recipe suggestion record, from `types.ts`. -/
structure RecipeSuggestion where
  title : String
  description : String
  steps : List String
  ingredients_used : List String
deriving DecidableEq

/-- A push subscription row (`endpoint, p256dh, auth`), from `types.ts`. -/
structure PushSubscription where
  endpoint : String
  p256dh : String
  auth : String
deriving DecidableEq

/-- The characters removed by JavaScript `String.prototype.trim` for the
ASCII fragment used by ingredient names (space, tab, LF, CR, VT, FF). -/
def jsWhitespace (c : Char) : Bool :=
  c = ' ' ∨ c = '\t' ∨ c = '\n' ∨ c = '\r' ∨ c = '\x0b' ∨ c = '\x0c'

/-- JavaScript `String.prototype.trim`: drop leading and trailing
whitespace characters. -/
def jsTrim (s : String) : String :=
  String.mk (((s.data.dropWhile jsWhitespace).reverse.dropWhile jsWhitespace).reverse)

/-- JavaScript `String.prototype.toLowerCase` on the ASCII fragment:
lowercase each character. -/
def jsToLowerCase (s : String) : String :=
  String.mk (s.data.map Char.toLower)

/-- The per-item normalisation applied by `buildIngredientList`
(`helpers.ts` line 7): `item.name.trim().toLowerCase()`. -/
def normalizeName (s : String) : String := jsToLowerCase (jsTrim s)

/-- Lexicographic comparison of character lists by code unit, the order
JavaScript `Array.prototype.sort()` uses for strings. -/
def charListLe : List Char → List Char → Bool
  | [], _ => true
  | _ :: _, [] => false
  | a :: as, b :: bs =>
    if a.toNat < b.toNat then true
    else if b.toNat < a.toNat then false
    else charListLe as bs

theorem charListLe_cons_iff {x y : Char} {xs ys : List Char} :
    charListLe (x :: xs) (y :: ys) = true ↔
      x.toNat < y.toNat ∨ (x.toNat = y.toNat ∧ charListLe xs ys = true) := by
  simp only [charListLe]
  by_cases h1 : x.toNat < y.toNat
  · simp [h1]
  · by_cases h2 : y.toNat < x.toNat
    · simp only [if_neg h1, if_pos h2]
      constructor
      · intro h; simp at h
      · rintro (h | ⟨h, _⟩) <;> omega
    · have hxy : x.toNat = y.toNat := by omega
      simp [h1, h2, hxy]

theorem charListLe_refl : ∀ l, charListLe l l = true := by
  intro l
  induction l with
  | nil => rfl
  | cons x xs ih => rw [charListLe_cons_iff]; right; exact ⟨rfl, ih⟩

theorem charListLe_total : ∀ a b, charListLe a b = true ∨ charListLe b a = true := by
  intro a
  induction a with
  | nil => intro b; left; rfl
  | cons x xs ih =>
    intro b
    cases b with
    | nil => right; rfl
    | cons y ys =>
      rw [charListLe_cons_iff, charListLe_cons_iff]
      rcases Nat.lt_trichotomy x.toNat y.toNat with h | h | h
      · left; left; exact h
      · rcases ih ys with h2 | h2
        · left; right; exact ⟨h, h2⟩
        · right; right; exact ⟨h.symm, h2⟩
      · right; left; exact h

theorem charListLe_trans : ∀ a b c, charListLe a b = true → charListLe b c = true →
    charListLe a c = true := by
  intro a
  induction a with
  | nil => intros; rfl
  | cons x xs ih =>
    intro b c hab hbc
    cases b with
    | nil => simp [charListLe] at hab
    | cons y ys =>
      cases c with
      | nil => simp [charListLe] at hbc
      | cons z zs =>
        rw [charListLe_cons_iff] at hab hbc ⊢
        rcases hab with h1 | ⟨h1, h1t⟩ <;> rcases hbc with h2 | ⟨h2, h2t⟩
        · left; omega
        · left; omega
        · left; omega
        · right; exact ⟨by omega, ih ys zs h1t h2t⟩

theorem char_toNat_inj {a b : Char} (h : a.toNat = b.toNat) : a = b :=
  Char.ext (UInt32.toNat.inj h)

theorem charListLe_antisymm : ∀ a b, charListLe a b = true → charListLe b a = true →
    a = b := by
  intro a
  induction a with
  | nil =>
    intro b _ hba
    cases b with
    | nil => rfl
    | cons y ys => simp [charListLe] at hba
  | cons x xs ih =>
    intro b hab hba
    cases b with
    | nil => simp [charListLe] at hab
    | cons y ys =>
      rw [charListLe_cons_iff] at hab hba
      rcases hab with h1 | ⟨h1, h1t⟩
      · rcases hba with h2 | ⟨h2, _⟩ <;> omega
      · rcases hba with h2 | ⟨h2, h2t⟩
        · omega
        · rw [char_toNat_inj h1, ih ys h1t h2t]

/-- String order by code units, as used by the default `sort()`. -/
def strLe (a b : String) : Prop := charListLe a.data b.data = true

instance : DecidableRel strLe := fun _ _ => instDecidableEqBool _ _

instance : IsTotal String strLe := ⟨fun a b => charListLe_total a.data b.data⟩

instance : IsTrans String strLe := ⟨fun a b c => charListLe_trans a.data b.data c.data⟩

instance : IsAntisymm String strLe :=
  ⟨fun a b hab hba => by
    cases a; cases b
    exact congrArg String.mk (charListLe_antisymm _ _ hab hba)⟩

instance : IsRefl String strLe := ⟨fun a => charListLe_refl a.data⟩

/-- Deduplication keeping the first occurrence of each name, the behaviour
of `[...new Set(normalized)]` (`helpers.ts` line 8). The `seen` accumulator
holds the names already emitted. -/
def setDedupAux : List String → List String → List String
  | [], _ => []
  | a :: t, seen =>
    if a ∈ seen then setDedupAux t seen else a :: setDedupAux t (a :: seen)

/-- `[...new Set(l)]`: the distinct members of `l` in first-occurrence order. -/
def setDedup (l : List String) : List String := setDedupAux l []

theorem mem_setDedupAux : ∀ (l seen : List String) (x : String),
    x ∈ setDedupAux l seen ↔ x ∈ l ∧ x ∉ seen := by
  intro l
  induction l with
  | nil => intro seen x; simp [setDedupAux]
  | cons a t ih =>
    intro seen x
    simp only [setDedupAux]
    by_cases ha : a ∈ seen
    · rw [if_pos ha, ih]
      constructor
      · rintro ⟨hx, hs⟩
        exact ⟨List.mem_cons_of_mem _ hx, hs⟩
      · rintro ⟨hx, hs⟩
        rcases List.mem_cons.mp hx with rfl | hx
        · exact absurd ha hs
        · exact ⟨hx, hs⟩
    · rw [if_neg ha]
      simp only [List.mem_cons, ih, not_or]
      constructor
      · rintro (rfl | ⟨hx, hxa, hs⟩)
        · exact ⟨Or.inl rfl, ha⟩
        · exact ⟨Or.inr hx, hs⟩
      · rintro ⟨rfl | hx, hs⟩
        · left; rfl
        · by_cases hxa : x = a
          · left; exact hxa
          · right; exact ⟨hx, hxa, hs⟩

theorem mem_setDedup (l : List String) (x : String) : x ∈ setDedup l ↔ x ∈ l := by
  rw [setDedup, mem_setDedupAux]
  simp

theorem nodup_setDedupAux : ∀ (l seen : List String), (setDedupAux l seen).Nodup := by
  intro l
  induction l with
  | nil => intro seen; simp [setDedupAux]
  | cons a t ih =>
    intro seen
    simp only [setDedupAux]
    by_cases ha : a ∈ seen
    · rw [if_pos ha]; exact ih seen
    · rw [if_neg ha]
      refine List.nodup_cons.mpr ⟨?_, ih (a :: seen)⟩
      intro hmem
      exact ((mem_setDedupAux t (a :: seen) a).mp hmem).2 (List.mem_cons_self a seen)

theorem nodup_setDedup (l : List String) : (setDedup l).Nodup := nodup_setDedupAux l []

/-- Build a normalized, deduplicated, sorted ingredient list from food
items, from `helpers.ts` lines 6-11: map each item to
`item.name.trim().toLowerCase()`, collapse duplicates with a `Set`, and
sort with the default string order. -/
def buildIngredientList (items : List FoodItem) : List String :=
  List.insertionSort strLe (setDedup (items.map (fun it => normalizeName it.name)))

theorem buildIngredientList_sorted (items : List FoodItem) :
    (buildIngredientList items).Sorted strLe :=
  List.sorted_insertionSort strLe _

theorem buildIngredientList_nodup (items : List FoodItem) :
    (buildIngredientList items).Nodup :=
  ((List.perm_insertionSort strLe _).nodup_iff).mpr
    (nodup_setDedup (items.map (fun it => normalizeName it.name)))

theorem mem_buildIngredientList (items : List FoodItem) (s : String) :
    s ∈ buildIngredientList items ↔ ∃ it ∈ items, normalizeName it.name = s := by
  rw [buildIngredientList, (List.perm_insertionSort strLe _).mem_iff, mem_setDedup]
  simp

/-- Two item lists whose normalized names have the same membership produce
the same ingredient list: sorting plus deduplication erase order,
duplication, case and surrounding whitespace. -/
theorem buildIngredientList_eq_of_mem_iff (items1 items2 : List FoodItem)
    (h : ∀ s, s ∈ items1.map (fun it => normalizeName it.name) ↔
      s ∈ items2.map (fun it => normalizeName it.name)) :
    buildIngredientList items1 = buildIngredientList items2 := by
  apply List.eq_of_perm_of_sorted
    ((List.perm_ext_iff_of_nodup (buildIngredientList_nodup items1)
      (buildIngredientList_nodup items2)).mpr ?_)
    (buildIngredientList_sorted items1) (buildIngredientList_sorted items2)
  intro s
  rw [mem_buildIngredientList, mem_buildIngredientList]
  have h1 := h s
  simp only [List.mem_map] at h1
  constructor
  · rintro ⟨it, hit, hs⟩
    obtain ⟨it2, hit2, hs2⟩ := h1.mp ⟨it, hit, hs⟩
    exact ⟨it2, hit2, hs2⟩
  · rintro ⟨it, hit, hs⟩
    obtain ⟨it1, hit1, hs1⟩ := h1.mpr ⟨it, hit, hs⟩
    exact ⟨it1, hit1, hs1⟩

/-- Reduction modulo 2^32, the wraparound of 32-bit words in SHA-256. -/
def w32 (n : Nat) : Nat := n % 4294967296

/-- Right rotation of a 32-bit word. -/
def rotr32 (n x : Nat) : Nat := w32 ((x >>> n) ||| (x <<< (32 - n)))

/-- SHA-256 upper-case sigma 0 (FIPS 180-4). -/
def bigSigma0 (x : Nat) : Nat := (rotr32 2 x) ^^^ (rotr32 13 x) ^^^ (rotr32 22 x)

/-- SHA-256 upper-case sigma 1 (FIPS 180-4). -/
def bigSigma1 (x : Nat) : Nat := (rotr32 6 x) ^^^ (rotr32 11 x) ^^^ (rotr32 25 x)

/-- SHA-256 lower-case sigma 0 (FIPS 180-4). -/
def smallSigma0 (x : Nat) : Nat := (rotr32 7 x) ^^^ (rotr32 18 x) ^^^ (x >>> 3)

/-- SHA-256 lower-case sigma 1 (FIPS 180-4). -/
def smallSigma1 (x : Nat) : Nat := (rotr32 17 x) ^^^ (rotr32 19 x) ^^^ (x >>> 10)

/-- SHA-256 choice function; 32-bit complement is xor with 2^32 - 1. -/
def chBits (x y z : Nat) : Nat := (x &&& y) ^^^ ((x ^^^ 4294967295) &&& z)

/-- SHA-256 majority function. -/
def majBits (x y z : Nat) : Nat := (x &&& y) ^^^ (x &&& z) ^^^ (y &&& z)

/-- The eight 32-bit working variables of SHA-256. -/
structure Sha256State where
  a : Nat
  b : Nat
  c : Nat
  d : Nat
  e : Nat
  f : Nat
  g : Nat
  h : Nat

/-- SHA-256 initial hash value (FIPS 180-4). -/
def sha256Init : Sha256State :=
  ⟨0x6a09e667, 0xbb67ae85, 0x3c6ef372, 0xa54ff53a,
   0x510e527f, 0x9b05688c, 0x1f83d9ab, 0x5be0cd19⟩

/-- SHA-256 round constants 0-7 (FIPS 180-4). -/
def sha256K0 : List Nat :=
  [0x428a2f98, 0x71374491, 0xb5c0fbcf, 0xe9b5dba5,
   0x3956c25b, 0x59f111f1, 0x923f82a4, 0xab1c5ed5]

/-- SHA-256 round constants 8-15 (FIPS 180-4). -/
def sha256K1 : List Nat :=
  [0xd807aa98, 0x12835b01, 0x243185be, 0x550c7dc3,
   0x72be5d74, 0x80deb1fe, 0x9bdc06a7, 0xc19bf174]

/-- SHA-256 round constants 16-23 (FIPS 180-4). -/
def sha256K2 : List Nat :=
  [0xe49b69c1, 0xefbe4786, 0x0fc19dc6, 0x240ca1cc,
   0x2de92c6f, 0x4a7484aa, 0x5cb0a9dc, 0x76f988da]

/-- SHA-256 round constants 24-31 (FIPS 180-4). -/
def sha256K3 : List Nat :=
  [0x983e5152, 0xa831c66d, 0xb00327c8, 0xbf597fc7,
   0xc6e00bf3, 0xd5a79147, 0x06ca6351, 0x14292967]

/-- SHA-256 round constants 32-39 (FIPS 180-4). -/
def sha256K4 : List Nat :=
  [0x27b70a85, 0x2e1b2138, 0x4d2c6dfc, 0x53380d13,
   0x650a7354, 0x766a0abb, 0x81c2c92e, 0x92722c85]

/-- SHA-256 round constants 40-47 (FIPS 180-4). -/
def sha256K5 : List Nat :=
  [0xa2bfe8a1, 0xa81a664b, 0xc24b8b70, 0xc76c51a3,
   0xd192e819, 0xd6990624, 0xf40e3585, 0x106aa070]

/-- SHA-256 round constants 48-55 (FIPS 180-4). -/
def sha256K6 : List Nat :=
  [0x19a4c116, 0x1e376c08, 0x2748774c, 0x34b0bcb5,
   0x391c0cb3, 0x4ed8aa4a, 0x5b9cca4f, 0x682e6ff3]

/-- SHA-256 round constants 56-63 (FIPS 180-4). -/
def sha256K7 : List Nat :=
  [0x748f82ee, 0x78a5636f, 0x84c87814, 0x8cc70208,
   0x90befffa, 0xa4506ceb, 0xbef9a3f7, 0xc67178f2]

/-- The 64 SHA-256 round constants (FIPS 180-4). -/
def sha256K : List Nat :=
  sha256K0 ++ sha256K1 ++ sha256K2 ++ sha256K3 ++ sha256K4 ++ sha256K5 ++ sha256K6 ++ sha256K7

/-- Extend a 16-word block with `n` further message-schedule words. -/
def extendSchedule : List Nat → Nat → List Nat
  | w, 0 => w
  | w, n + 1 =>
    let len := w.length
    let next := w32 (smallSigma1 (w.getD (len - 2) 0) + w.getD (len - 7) 0 +
      smallSigma0 (w.getD (len - 15) 0) + w.getD (len - 16) 0)
    extendSchedule (w ++ [next]) n

/-- One SHA-256 compression round on a (round constant, schedule word) pair. -/
def sha256Round (st : Sha256State) (kw : Nat × Nat) : Sha256State :=
  let t1 := w32 (st.h + bigSigma1 st.e + chBits st.e st.f st.g + kw.1 + kw.2)
  let t2 := w32 (bigSigma0 st.a + majBits st.a st.b st.c)
  ⟨w32 (t1 + t2), st.a, st.b, st.c, w32 (st.d + t1), st.e, st.f, st.g⟩

/-- Compress one 16-word message block into the running hash state. -/
def compressBlock (hs : Sha256State) (block16 : List Nat) : Sha256State :=
  let w := extendSchedule block16 48
  let st := (sha256K.zip w).foldl sha256Round hs
  ⟨w32 (hs.a + st.a), w32 (hs.b + st.b), w32 (hs.c + st.c), w32 (hs.d + st.d),
   w32 (hs.e + st.e), w32 (hs.f + st.f), w32 (hs.g + st.g), w32 (hs.h + st.h)⟩

/-- SHA-256 padding: append 0x80, zeros to 56 mod 64, and the bit length
as eight big-endian bytes. -/
def sha256Pad (msg : List Nat) : List Nat :=
  let len := msg.length
  let zeros := (64 + 56 - (len + 1) % 64) % 64
  let bitLen := 8 * len
  msg ++ 128 :: List.replicate zeros 0 ++
    [(bitLen >>> 56) % 256, (bitLen >>> 48) % 256, (bitLen >>> 40) % 256, (bitLen >>> 32) % 256,
     (bitLen >>> 24) % 256, (bitLen >>> 16) % 256, (bitLen >>> 8) % 256, bitLen % 256]

/-- Group bytes into big-endian 32-bit words. -/
def bytesToWords : List Nat → List Nat
  | b0 :: b1 :: b2 :: b3 :: rest =>
    ((b0 <<< 24) ||| (b1 <<< 16) ||| (b2 <<< 8) ||| b3) :: bytesToWords rest
  | _ => []

/-- Split a padded message into 64-byte blocks. -/
def toBlocks (l : List Nat) : List (List Nat) :=
  if h : l = [] then []
  else l.take 64 :: toBlocks (l.drop 64)
termination_by l.length
decreasing_by
  have : 0 < l.length := List.length_pos.mpr h
  simp only [List.length_drop]
  omega

/-- The four big-endian bytes of a 32-bit word. -/
def wordBytes (x : Nat) : List Nat :=
  [(x >>> 24) % 256, (x >>> 16) % 256, (x >>> 8) % 256, x % 256]

/-- SHA-256 of a byte sequence, as 32 digest bytes. This is the model of
the Web Crypto call `crypto.subtle.digest(\x27SHA-256\x27, data)` in
`helpers.ts` line 21, implemented per FIPS 180-4 and checked against the
standard test vectors. -/
def sha256Bytes (msg : List Nat) : List Nat :=
  let st := (toBlocks (sha256Pad msg)).foldl
    (fun hs b => compressBlock hs (bytesToWords b)) sha256Init
  wordBytes st.a ++ wordBytes st.b ++ wordBytes st.c ++ wordBytes st.d ++
    wordBytes st.e ++ wordBytes st.f ++ wordBytes st.g ++ wordBytes st.h

/-- UTF-8 encoding of one character, the byte production of `TextEncoder`. -/
def charUtf8 (c : Char) : List Nat :=
  let n := c.toNat
  if n < 128 then [n]
  else if n < 2048 then [192 + n / 64, 128 + n % 64]
  else if n < 65536 then [224 + n / 4096, 128 + (n / 64) % 64, 128 + n % 64]
  else [240 + n / 262144, 128 + (n / 4096) % 64, 128 + (n / 64) % 64, 128 + n % 64]

/-- `new TextEncoder().encode(s)`: the UTF-8 bytes of a string
(`helpers.ts` lines 19-20). -/
def utf8Bytes (s : String) : List Nat := (s.data.map charUtf8).flatten

/-- The decimal digit characters. -/
def hexDigitsNum : List Char := ['0', '1', '2', '3', '4', '5', '6', '7', '8', '9']

/-- The six letter digits of lowercase hexadecimal. -/
def hexDigitsAlpha : List Char := ['a', 'b', 'c', 'd', 'e', 'f']

/-- The lowercase hexadecimal digits produced by `b.toString(16)`. -/
def hexChars : List Char := hexDigitsNum ++ hexDigitsAlpha

/-- `b.toString(16).padStart(2, \x270\x27)` for a byte `b < 256`
(`helpers.ts` line 23): two lowercase hex digits. -/
def byteToHex (b : Nat) : String :=
  String.mk [hexChars.getD (b / 16) '0', hexChars.getD (b % 16) '0']

/-- Generate a deterministic SHA-256 hash of the ingredient list, from
`helpers.ts` lines 17-24: join with the pipe delimiter, UTF-8 encode,
digest, and render each byte as two lowercase hex digits. -/
def generateIngredientHash (ingredients : List String) : String :=
  String.join ((sha256Bytes (utf8Bytes (String.intercalate "|" ingredients))).map byteToHex)

theorem sha256Bytes_length (msg : List Nat) : (sha256Bytes msg).length = 32 := by
  simp [sha256Bytes, wordBytes]

theorem byteToHex_length (b : Nat) : (byteToHex b).length = 2 := rfl

theorem byteToHex_mem_hexChars (b : Nat) (c : Char) (hc : c ∈ (byteToHex b).data) :
    c ∈ hexChars := by
  have hmem : ∀ n : Nat, hexChars.getD n '0' ∈ hexChars := by
    intro n
    by_cases h : n < hexChars.length
    · rw [List.getD_eq_getElem _ _ h]
      exact List.getElem_mem h
    · rw [List.getD_eq_default _ _ (Nat.le_of_not_lt h)]
      simp [hexChars, hexDigitsNum, hexDigitsAlpha]
  have hdata : (byteToHex b).data =
      [hexChars.getD (b / 16) '0', hexChars.getD (b % 16) '0'] := rfl
  rw [hdata] at hc
  rcases List.mem_cons.mp hc with rfl | hc2
  · exact hmem _
  rcases List.mem_cons.mp hc2 with rfl | hc3
  · exact hmem _
  simp at hc3

theorem string_join_length (l : List String) :
    (String.join l).length = (l.map String.length).sum := by
  have haux : ∀ (l : List String) (acc : String),
      (l.foldl (fun r s => r ++ s) acc).length = acc.length + (l.map String.length).sum := by
    intro l
    induction l with
    | nil => intro acc; simp
    | cons x xs ih =>
      intro acc
      simp only [List.foldl_cons, ih, String.length_append, List.map_cons, List.sum_cons]
      omega
  have := haux l ""
  simpa [String.join] using this

theorem string_join_data (l : List String) :
    (String.join l).data = (l.map String.data).flatten := by
  have haux : ∀ (l : List String) (acc : String),
      (l.foldl (fun r s => r ++ s) acc).data = acc.data ++ (l.map String.data).flatten := by
    intro l
    induction l with
    | nil => intro acc; simp
    | cons x xs ih =>
      intro acc
      simp only [List.foldl_cons, ih, List.map_cons, List.flatten_cons]
      simp [String.data_append]
  have := haux l ""
  simpa [String.join] using this

/-- The rendered fingerprint is 64 characters long: 32 digest bytes, two
hex digits each. -/
theorem generateIngredientHash_length (ingredients : List String) :
    (generateIngredientHash ingredients).length = 64 := by
  rw [generateIngredientHash, string_join_length]
  rw [List.map_map]
  have : (byteToHex · ) ∘ id = byteToHex := rfl
  have hconst : ((sha256Bytes (utf8Bytes (String.intercalate "|" ingredients))).map
      (String.length ∘ byteToHex)) = List.replicate 32 2 := by
    rw [List.eq_replicate_iff]
    constructor
    · rw [List.length_map, sha256Bytes_length]
    · intro b hb
      rw [List.mem_map] at hb
      obtain ⟨x, _, hx⟩ := hb
      rw [← hx]
      rfl
  rw [hconst]
  simp

/-- Every character of the rendered fingerprint is a lowercase hex digit. -/
theorem generateIngredientHash_hex (ingredients : List String) (c : Char)
    (hc : c ∈ (generateIngredientHash ingredients).data) : c ∈ hexChars := by
  rw [generateIngredientHash, string_join_data, List.map_map] at hc
  rw [List.mem_flatten] at hc
  obtain ⟨piece, hpiece, hcp⟩ := hc
  rw [List.mem_map] at hpiece
  obtain ⟨b, _, hb⟩ := hpiece
  rw [← hb] at hcp
  exact byteToHex_mem_hexChars b c hcp

/-- A parsed JSON value as manipulated by the provider adapter after
`JSON.parse` (`openai.ts` lines 114-142). Numbers are modelled as
integers; the recipe coercion in play never computes with them. -/
inductive JsValue where
  | undefined
  | null
  | bool (b : Bool)
  | num (n : Int)
  | str (s : String)
  | arr (xs : List JsValue)
  | obj (fields : List (String × JsValue))

/-- JavaScript truthiness of a value. -/
def JsValue.truthy : JsValue → Bool
  | .undefined => false
  | .null => false
  | .bool b => b
  | .num n => n != 0
  | .str s => !s.isEmpty
  | .arr _ => true
  | .obj _ => true

/-- Property access `v[k]`: the first binding for `k` on an object, and
`undefined` otherwise. Access on `null` or `undefined` throws in
JavaScript and is not modelled; the coercion in play receives the parsed
recipe entries, which the claims take to be objects or other non-null
primitives. -/
def JsValue.get : JsValue → String → JsValue
  | .obj fields, k =>
    match fields.find? (fun f => f.1 == k) with
    | some f => f.2
    | none => .undefined
  | _, _ => .undefined

/-- `Array.isArray` refined into the element list. -/
def JsValue.asArray : JsValue → Option (List JsValue)
  | .arr xs => some xs
  | _ => none

mutual

/-- JavaScript `String(v)` conversion for parsed JSON values. -/
def jsToString : JsValue → String
  | .undefined => "undefined"
  | .null => "null"
  | .bool true => "true"
  | .bool false => "false"
  | .num n => toString n
  | .str s => s
  | .arr xs => jsArrayJoin xs
  | .obj _ => "[object Object]"

/-- Array-to-string: elements joined with commas. -/
def jsArrayJoin : List JsValue → String
  | [] => ""
  | [x] => jsElemString x
  | x :: xs => jsElemString x ++ "," ++ jsArrayJoin xs

/-- An array element renders like `String(v)` except that `null` and
`undefined` render empty inside a join. -/
def jsElemString : JsValue → String
  | .undefined => ""
  | .null => ""
  | .bool true => "true"
  | .bool false => "false"
  | .num n => toString n
  | .str s => s
  | .arr xs => jsArrayJoin xs
  | .obj _ => "[object Object]"

end

/-- Defensive coercion of one parsed recipe entry, from `openai.ts` lines
131-142: falsy `title` and `description` fall back to fixed placeholders,
non-array `steps` and `ingredients_used` become empty arrays, and every
element is stringified. -/
def coerceRecipe (r : JsValue) : RecipeSuggestion :=
  { title := jsToString
      (if (r.get "title").truthy then r.get "title" else JsValue.str "Untitled Recipe"),
    description := jsToString
      (if (r.get "description").truthy then r.get "description"
       else JsValue.str "A quick recipe with your expiring ingredients."),
    steps :=
      match (r.get "steps").asArray with
      | some xs => xs.map jsToString
      | none => [],
    ingredients_used :=
      match (r.get "ingredients_used").asArray with
      | some xs => xs.map jsToString
      | none => [] }

/-- Validation of the parsed provider output, from `openai.ts` lines
124-142: accept either a bare array or an object with a `recipes`
property, reject an empty or non-array list, truncate to the first three
entries with `slice(0, 3)`, and coerce each entry. -/
def validateRecipes (parsed : JsValue) : Except String (List RecipeSuggestion) :=
  let recipesVal :=
    match parsed with
    | .arr _ => parsed
    | _ => parsed.get "recipes"
  match recipesVal.asArray with
  | some xs =>
    if xs.isEmpty then Except.error "OpenAI response did not contain a valid recipes array"
    else Except.ok ((xs.take 3).map coerceRecipe)
  | none => Except.error "OpenAI response did not contain a valid recipes array"

/-- JavaScript `s.startsWith(pre)`: prefix test on the character lists. -/
def strStartsWithAux : List Char → List Char → Bool
  | [], _ => true
  | _ :: _, [] => false
  | p :: ps, c :: cs => if p = c then strStartsWithAux ps cs else false

/-- JavaScript `String.prototype.startsWith`. -/
def jsStartsWith (s pre : String) : Bool := strStartsWithAux pre.data s.data

/-- The fields of the JSON object serialised by the payload builders in
`notifications.ts`; `dataUrl` and `dataType` are the `url` and `type`
members of the nested `data` object. The handler sends
`JSON.stringify` of this object; the embedding keeps it structured. -/
structure PushPayload where
  title : String
  body : String
  icon : String
  badge : String
  tag : String
  dataUrl : String
  dataType : String
deriving DecidableEq

/-- Build push notification payload with recipe suggestions, from
`notifications.ts` lines 9-31: numbered recipe titles, then an ingredient
summary of the first five names with an ellipsis when more follow. -/
def buildNotificationPayload (recipes : List RecipeSuggestion)
    (ingredients : List String) : PushPayload :=
  let recipeTitles := String.intercalate "\n"
    (recipes.enum.map (fun p => toString (p.1 + 1) ++ ". " ++ p.2.title))
  let ingredientSummary := String.intercalate ", " (ingredients.take 5)
  { title := "🍳 Recipe ideas for your expiring food!",
    body := recipeTitles ++ "\n\nUsing: " ++ ingredientSummary ++
      (if 5 < ingredients.length then "..." else ""),
    icon := "/icons/icon-192x192.png",
    badge := "/icons/badge-72x72.png",
    tag := "recipe-suggestion",
    dataUrl := "/",
    dataType := "recipe_suggestion" }

/-- Build fallback notification payload when AI fails, from
`notifications.ts` lines 36-55: the first three item names, an
`and N more` suffix when more than three items are present, and the
`recipe_suggestion_fallback` data type. -/
def buildFallbackPayload (items : List FoodItem) : PushPayload :=
  let itemNames := String.intercalate ", " ((items.take 3).map (fun it => it.name))
  let suffix := if 3 < items.length then " and " ++ toString (items.length - 3) ++ " more" else ""
  { title := "🍎 Use your expiring ingredients!",
    body := itemNames ++ suffix ++ " are expiring soon. Check the app for ideas!",
    icon := "/icons/icon-192x192.png",
    badge := "/icons/badge-72x72.png",
    tag := "recipe-suggestion",
    dataUrl := "/",
    dataType := "recipe_suggestion_fallback" }

/-- Build HTML email body for recipe suggestions, from `notifications.ts`
lines 60-87 (whitespace of the template literals reproduced inline). -/
def buildRecipeEmailHtml (recipes : List RecipeSuggestion)
    (ingredients : List String) : String :=
  let recipeCards := String.intercalate ""
    (recipes.map (fun r =>
      "\n      <div style=\"background: #f0fdf4; border: 1px solid #bbf7d0; border-radius: 8px; padding: 16px; margin-bottom: 12px;\">\n        <h3 style=\"margin: 0 0 8px 0; color: #166534; font-size: 16px;\">" ++
      r.title ++
      "</h3>\n        <p style=\"margin: 0 0 8px 0; color: #374151; font-size: 14px;\">" ++
      r.description ++
      "</p>\n        <p style=\"margin: 0; color: #6b7280; font-size: 12px;\">Uses: " ++
      String.intercalate ", " r.ingredients_used ++
      "</p>\n      </div>"))
  "\n    <div style=\"font-family: -apple-system, BlinkMacSystemFont, \x27Segoe UI\x27, Roboto, sans-serif; max-width: 480px; margin: 0 auto; padding: 24px;\">\n      <div style=\"text-align: center; margin-bottom: 24px;\">\n        <span style=\"font-size: 48px;\">🍳</span>\n        <h1 style=\"margin: 8px 0 4px 0; color: #111827; font-size: 20px;\">Recipe Ideas for You</h1>\n        <p style=\"margin: 0; color: #6b7280; font-size: 14px;\">Your ingredients (" ++
  String.intercalate ", " ingredients ++
  ") are expiring soon!</p>\n      </div>\n      " ++
  recipeCards ++
  "\n      <div style=\"text-align: center; margin-top: 24px;\">\n        <p style=\"color: #9ca3af; font-size: 12px;\">Food Expiry Tracker — Reduce waste, eat well.</p>\n      </div>\n    </div>"

/-- Build fallback HTML email when AI fails, from `notifications.ts`
lines 92-112: a bulleted list of item name and expiry date. -/
def buildFallbackEmailHtml (items : List FoodItem) : String :=
  let itemList := String.intercalate ""
    (items.map (fun it =>
      "<li style=\"color: #374151; font-size: 14px; margin-bottom: 4px;\">" ++
      it.name ++ " — expires " ++ it.expiry_date ++ "</li>"))
  "\n    <div style=\"font-family: -apple-system, BlinkMacSystemFont, \x27Segoe UI\x27, Roboto, sans-serif; max-width: 480px; margin: 0 auto; padding: 24px;\">\n      <div style=\"text-align: center; margin-bottom: 24px;\">\n        <span style=\"font-size: 48px;\">🍎</span>\n        <h1 style=\"margin: 8px 0 4px 0; color: #111827; font-size: 20px;\">Food Expiring Soon!</h1>\n        <p style=\"margin: 0; color: #6b7280; font-size: 14px;\">Some of your food is expiring — time to use it up!</p>\n      </div>\n      <ul style=\"padding-left: 20px;\">" ++
  itemList ++
  "</ul>\n      <div style=\"text-align: center; margin-top: 24px;\">\n        <p style=\"color: #9ca3af; font-size: 12px;\">Food Expiry Tracker — Reduce waste, eat well.</p>\n      </div>\n    </div>"

/-- The per-endpoint success results of `sendPushNotifications`
(`notifications.ts` lines 162-199): each registered subscription is
attempted independently; `outcomes` lists the transport result for each
endpoint in order. The HTTP-410 deactivation side effect touches only the
subscriber directory and is not traced here. -/
def pushResultsOf (subs : List PushSubscription) (outcomes : List Bool) : List Bool :=
  (subs.zip outcomes).map (fun pr => pr.2)

/-- The `successCount` of `sendPushNotifications`: endpoints whose send
succeeded. -/
def pushSuccessCount (subs : List PushSubscription) (outcomes : List Bool) : Nat :=
  ((subs.zip outcomes).filter (fun pr => pr.2)).length

/-- The destructured result of the supabase cache read in `checkCache`
(`cache.ts` lines 12-18): a possible row and a possible storage error. -/
structure CacheQueryResult where
  data : Option (List RecipeSuggestion)
  error : Option String
deriving DecidableEq

/-- Check if a cached recipe exists for this ingredient hash, from
`cache.ts` lines 8-22: `if (error || !data) return null` — a storage
error and a missing row are both reported as `null`. -/
def checkCache (res : CacheQueryResult) : Option (List RecipeSuggestion) :=
  if res.error.isSome then none
  else
    match res.data with
    | none => none
    | some recipes => some recipes

/-- A `notification_log` row as the edge function reads and counts it:
owner, category, optional ingredient fingerprint, and the calendar date of
`sent_at`. -/
structure LedgerRow where
  user_id : String
  notification_type : String
  ingredient_hash : Option String
  sent_date : String
deriving DecidableEq

/-- A `notification_log` insert as issued by the batch sweep
(`index.ts` lines 810-816 and 875-881). -/
structure LedgerInsert where
  user_id : String
  notification_type : String
  food_item_ids : List String
  ingredient_hash : String
  status : String
deriving DecidableEq

/-- The result of the AI provider call `callOpenAI` on success
(`openai.ts` lines 147-156). -/
structure AICallResult where
  recipes : List RecipeSuggestion
  prompt_tokens : Nat
  completion_tokens : Nat
  total_tokens : Nat
  timeMs : Nat
  promptText : String
deriving DecidableEq

/-- The optional JSON request body of the on-demand operation, as sent by
the frontend component `RecipeSuggestions.handleGetRecipes`
(`{ mode: \x27single\x27, expiryDays, itemIds? }`). -/
structure RequestBody where
  mode : Option String
  itemIds : Option (List String)
  expiryDays : Option Nat
deriving DecidableEq

/-- The parameters of the single-user item query the handler issues
(`index.ts` lines 578-585): filter by owner and `active` status, expiry
date between today and today plus three days, ascending. Dates are days
since an arbitrary epoch. The parsed request body is in scope at this
point of the handler; the query builder does not consult it. -/
structure ItemQuery where
  userId : String
  status : String
  minExpiry : Nat
  maxExpiry : Nat
  ascending : Bool
deriving DecidableEq

/-- The single-user item query construction (`index.ts` lines 572-585):
`gte(\x27expiry_date\x27, todayStr)` and a `lte` bound of today plus a
hard-coded three days, regardless of the request body. -/
def singleUserItemQuery (userId : String) (today : Nat) (body : RequestBody) : ItemQuery :=
  { userId := userId,
    status := "active",
    minExpiry := today,
    maxExpiry := today + 3,
    ascending := true }

/-- Environment of one single-user request: the request body, the
identity check result, and the responses the collaborators would give.
The `ledger` field holds the `notification_log` table contents; the
single-user handler never reads it. -/
structure SingleEnv where
  body : RequestBody
  authResult : Option String
  today : Nat
  itemsQuery : Except String (List FoodItem)
  cacheResult : CacheQueryResult
  aiResult : Except String AICallResult
  ledger : List LedgerRow

/-- Effects performed by one single-user request. -/
structure SingleTrace where
  cacheLookups : List String
  aiCalls : Nat
  cacheStores : List String
deriving DecidableEq

/-- The JSON response of the single-user mode: 401 on a bad token, 500 on
a thrown error, or `{recipes, ingredients, cached, message?}`. The
elapsed-time member is wall-clock and not modelled. -/
inductive SingleResponse where
  | invalidToken
  | serverError (msg : String)
  | ok (recipes : List RecipeSuggestion) (ingredients : List String)
       (cached : Bool) (message : Option String)
deriving DecidableEq

/-- Whether a single-user response is a 200 with a recipe body. -/
def SingleResponse.isOk : SingleResponse → Bool
  | .ok _ _ _ _ => true
  | _ => false

/-- The single-user (frontend-triggered) mode of the edge function,
`index.ts` lines 555-638: verify the JWT, query the fixed expiry window,
short-circuit on empty items or empty ingredients, then cache lookup,
provider call on a miss (its failure propagating as a 500 through the
outer catch), and best-effort cache store. No rate-limit query and no
ledger read or write occur in this path. -/
def singleUserMode (env : SingleEnv) : SingleResponse × SingleTrace :=
  match env.authResult with
  | none => (.invalidToken, ⟨[], 0, []⟩)
  | some _ =>
    match env.itemsQuery with
    | .error msg => (.serverError ("Failed to fetch items: " ++ msg), ⟨[], 0, []⟩)
    | .ok userItems =>
      if userItems.isEmpty then
        (.ok [] [] false (some "No items expiring in the next 3 days"), ⟨[], 0, []⟩)
      else
        let ingredients := buildIngredientList userItems
        if ingredients.isEmpty then
          (.ok [] [] false (some "No valid ingredients found"), ⟨[], 0, []⟩)
        else
          let hash := generateIngredientHash ingredients
          match checkCache env.cacheResult with
          | some recipes => (.ok recipes ingredients true none, ⟨[hash], 0, []⟩)
          | none =>
            match env.aiResult with
            | .error msg => (.serverError msg, ⟨[hash], 1, []⟩)
            | .ok ai => (.ok ai.recipes ingredients false none, ⟨[hash], 1, [hash]⟩)

/-- A `profiles` row as selected by the batch sweep
(`notification_enabled, email`, `index.ts` lines 707-711). -/
structure Profile where
  notification_enabled : Bool
  email : Option String
deriving DecidableEq

/-- One delivery attempt issued by the batch sweep: a push fan-out with a
payload, or one transactional email. -/
inductive Delivery where
  | push (payload : PushPayload)
  | email (addr : String) (subject : String) (html : String)
deriving DecidableEq

/-- One entry of the `metrics` array (`ProcessingMetrics`, `index.ts`
lines 45-55); `pushResults` keeps the per-endpoint success flags. -/
structure Metric where
  userId : String
  ingredientCount : Nat
  cacheHit : Bool
  aiCallTimeMs : Option Nat := none
  promptTokens : Option Nat := none
  completionTokens : Option Nat := none
  notificationMethod : Option String := none
  pushResults : Option (List Bool) := none
  error : Option String := none
deriving DecidableEq

/-- Effects performed while processing one user of a batch sweep. -/
structure UserTrace where
  cacheLookups : List String
  aiCalls : Nat
  cacheStores : List String
  deliveries : List Delivery
  ledgerInserts : List LedgerInsert
deriving DecidableEq

/-- The empty effect trace: the user was skipped before any work. -/
def emptyTrace : UserTrace := ⟨[], 0, [], [], []⟩

/-- Environment of one user of a batch sweep: the grouped items and the
responses the collaborators would give for this user. `subscriptions`
holds the user's active push subscriptions, as the source query already
filters on `is_active`. `pushOutcomes` lists the transport result per
registered endpoint; `emailOutcome` is the boolean the email transport
returns. The source wraps the per-user body in try/catch; no modelled
step throws, so the catch branch (which records an error metric) is
unreachable in this embedding. -/
structure BatchUserEnv where
  userId : String
  items : List FoodItem
  profile : Option Profile
  subscriptions : List PushSubscription
  ledger : List LedgerRow
  cacheResult : CacheQueryResult
  aiResult : Except String AICallResult
  pushOutcomes : List Bool
  emailOutcome : Bool

/-- The batch dedup filter (`index.ts` lines 745-751): rows of this user
with category `recipe_suggestion` and this exact fingerprint. -/
def ledgerDedupPred (userId hash : String) (row : LedgerRow) : Bool :=
  row.user_id == userId && row.notification_type == "recipe_suggestion" &&
    row.ingredient_hash == some hash

/-- The ledger insert the batch sweep writes after a reported delivery
(`index.ts` lines 810-816 and 875-881). -/
def mkLedgerInsert (env : BatchUserEnv) (hash : String) : LedgerInsert :=
  { user_id := env.userId,
    notification_type := "recipe_suggestion",
    food_item_ids := env.items.map (fun it => it.id),
    ingredient_hash := hash,
    status := "sent" }

/-- Shared normal-delivery tail of the per-user batch pipeline
(`index.ts` lines 833-885), reached from a cache hit or a successful
provider call: push to every endpoint if any is registered, else one
email; push a metrics entry; insert a ledger row only when the delivery
reported success. -/
def normalDelivery (env : BatchUserEnv) (prof : Profile) (ingredients : List String)
    (hash : String) (recipes : List RecipeSuggestion) (cacheHit : Bool)
    (aiTime : Option Nat) (aiPrompt : Option Nat) (aiCompletion : Option Nat)
    (aiCallCount : Nat) (cacheStores : List String) : List Metric × UserTrace :=
  if !env.subscriptions.isEmpty then
    let payload := buildNotificationPayload recipes ingredients
    let sent := decide (0 < pushSuccessCount env.subscriptions env.pushOutcomes)
    let metric : Metric :=
      { userId := env.userId, ingredientCount := ingredients.length, cacheHit := cacheHit,
        aiCallTimeMs := aiTime, promptTokens := aiPrompt, completionTokens := aiCompletion,
        notificationMethod := some "push",
        pushResults := some (pushResultsOf env.subscriptions env.pushOutcomes) }
    ([metric],
     { cacheLookups := [hash], aiCalls := aiCallCount, cacheStores := cacheStores,
       deliveries := [Delivery.push payload],
       ledgerInserts := if sent then [mkLedgerInsert env hash] else [] })
  else
    if !(prof.email.getD "").isEmpty then
      let html := buildRecipeEmailHtml recipes ingredients
      let sent := env.emailOutcome
      let metric : Metric :=
        { userId := env.userId, ingredientCount := ingredients.length, cacheHit := cacheHit,
          aiCallTimeMs := aiTime, promptTokens := aiPrompt, completionTokens := aiCompletion,
          notificationMethod := some "email" }
      ([metric],
       { cacheLookups := [hash], aiCalls := aiCallCount, cacheStores := cacheStores,
         deliveries := [Delivery.email (prof.email.getD "")
           "🍳 Recipe ideas for your expiring food!" html],
         ledgerInserts := if sent then [mkLedgerInsert env hash] else [] })
    else
      -- Unreachable behind the channel gate; the source would fall
      -- through with `sent = false`, pushing no metric and no ledger row.
      ([], { cacheLookups := [hash], aiCalls := aiCallCount, cacheStores := cacheStores,
             deliveries := [], ledgerInserts := [] })

/-- The AI-failure fallback of the per-user batch pipeline (`index.ts`
lines 783-830): push the fallback payload if any endpoint is registered,
else the fallback email; insert a ledger row only on a reported delivery;
push one metrics entry whose error starts with `AI failed`; continue. -/
def fallbackDelivery (env : BatchUserEnv) (prof : Profile) (ingredients : List String)
    (hash : String) (errMsg : String) : List Metric × UserTrace :=
  let hasPush := !env.subscriptions.isEmpty
  let delivered :=
    if hasPush then
      ([Delivery.push (buildFallbackPayload env.items)],
       decide (0 < pushSuccessCount env.subscriptions env.pushOutcomes), "fallback_push")
    else
      if !(prof.email.getD "").isEmpty then
        ([Delivery.email (prof.email.getD "") "🍎 Use your expiring ingredients!"
            (buildFallbackEmailHtml env.items)],
         env.emailOutcome, "fallback_email")
      else ([], false, "fallback_push")
  let metric : Metric :=
    { userId := env.userId, ingredientCount := ingredients.length, cacheHit := false,
      notificationMethod := some delivered.2.2,
      error := some ("AI failed, sent fallback: " ++ errMsg) }
  ([metric],
   { cacheLookups := [hash], aiCalls := 1, cacheStores := [],
     deliveries := delivered.1,
     ledgerInserts := if delivered.2.1 = true then [mkLedgerInsert env hash] else [] })

/-- Processing of one user within the batch sweep, `index.ts` lines
704-895: skip when notifications are disabled, when no delivery channel
exists, when the ingredient list is empty, or when a dedup ledger row for
this fingerprint already exists; otherwise cache lookup, provider call on
a miss (with the fallback on failure), delivery, and the ledger write. -/
def processUser (env : BatchUserEnv) : List Metric × UserTrace :=
  match env.profile with
  | none => ([], emptyTrace)
  | some prof =>
    if prof.notification_enabled then
      let hasPush := !env.subscriptions.isEmpty
      let hasEmail := !(prof.email.getD "").isEmpty
      if !hasPush && !hasEmail then ([], emptyTrace)
      else
        let ingredients := buildIngredientList env.items
        if ingredients.isEmpty then ([], emptyTrace)
        else
          let hash := generateIngredientHash ingredients
          if (env.ledger.filter (ledgerDedupPred env.userId hash)).isEmpty then
            match checkCache env.cacheResult with
            | some recipes =>
              normalDelivery env prof ingredients hash recipes true none none none 0 []
            | none =>
              match env.aiResult with
              | .ok ai =>
                normalDelivery env prof ingredients hash ai.recipes false
                  (some ai.timeMs) (some ai.prompt_tokens) (some ai.completion_tokens) 1 [hash]
              | .error errMsg => fallbackDelivery env prof ingredients hash errMsg
          else ([], emptyTrace)
    else ([], emptyTrace)

/-- The metrics array accumulated across the users of one sweep
(`index.ts` line 701 and the loop at 704): each user contributes its
entries in order, one user after the other. -/
def batchMetrics : List BatchUserEnv → List Metric
  | [] => []
  | env :: rest => (processUser env).1 ++ batchMetrics rest

/-- Whether a metrics entry records an AI failure handled by the
fallback, the `m.error?.startsWith(\x27AI failed\x27)` test of the
summary. -/
def metricErrAI (m : Metric) : Bool :=
  match m.error with
  | some e => jsStartsWith e "AI failed"
  | none => false

/-- The aggregate counters of the summary response, `index.ts` lines
903-916. The request-level members (message, item and user totals,
elapsed time) are not metric-derived and are left out. -/
structure BatchSummary where
  totalAICalls : Nat
  totalCacheHits : Nat
  totalPushSent : Nat
  totalEmailSent : Nat
  totalFallbacks : Nat
  totalErrors : Nat
deriving DecidableEq

/-- The summary counters computed from the metrics array, `index.ts`
lines 903-916. `totalErrors` deliberately filters out entries whose error
starts with `AI failed`; `totalFallbacks` counts entries whose
notification method starts with `fallback`. -/
def batchSummary (metrics : List Metric) : BatchSummary :=
  { totalAICalls := (metrics.filter (fun m => !m.cacheHit && !metricErrAI m)).length,
    totalCacheHits := (metrics.filter (fun m => m.cacheHit)).length,
    totalPushSent := (metrics.filter (fun m => m.notificationMethod == some "push")).length,
    totalEmailSent := (metrics.filter (fun m => m.notificationMethod == some "email")).length,
    totalFallbacks := (metrics.filter (fun m =>
      match m.notificationMethod with
      | some s => jsStartsWith s "fallback"
      | none => false)).length,
    totalErrors := (metrics.filter (fun m =>
      match m.error with
      | some e => !jsStartsWith e "AI failed"
      | none => false)).length }

theorem aiFailedPrefix (t : String) :
    jsStartsWith ("AI failed, sent fallback: " ++ t) "AI failed" = true := by
  rw [jsStartsWith, String.data_append]
  rfl

/-- C2: the Fingerprint Generator is deterministic on ingredient
membership. Two item lists whose names have identical membership after
trimming, lowercasing, and ignoring order and duplication hash to the same
fingerprint, which is 64 lowercase hexadecimal characters — the rendering
of a 256-bit digest of the pipe-joined sorted deduplicated names. -/
theorem fingerprint_generator_deterministic (items1 items2 : List FoodItem)
    (h : ∀ s, s ∈ items1.map (fun it => normalizeName it.name) ↔
      s ∈ items2.map (fun it => normalizeName it.name)) :
    generateIngredientHash (buildIngredientList items1) =
      generateIngredientHash (buildIngredientList items2) ∧
    (generateIngredientHash (buildIngredientList items1)).length = 64 ∧
    ∀ c ∈ (generateIngredientHash (buildIngredientList items1)).data, c ∈ hexChars :=
  ⟨congrArg generateIngredientHash (buildIngredientList_eq_of_mem_iff items1 items2 h),
   generateIngredientHash_length _,
   fun c hc => generateIngredientHash_hex _ c hc⟩

/-- The two example multisets of the determinism property:
`["Milk", " milk ", "EGGS"]` and `["eggs", "milk"]`. -/
def exItemsC2A : List FoodItem :=
  [⟨"1", "Milk", "2026-10-12", "Dairy", "u1"⟩,
   ⟨"2", " milk ", "2026-10-12", "Dairy", "u1"⟩,
   ⟨"3", "EGGS", "2026-10-13", "Dairy", "u1"⟩]

def exItemsC2B : List FoodItem :=
  [⟨"4", "eggs", "2026-10-12", "Dairy", "u1"⟩,
   ⟨"5", "milk", "2026-10-13", "Dairy", "u1"⟩]

theorem fingerprint_generator_deterministic_witness :
    generateIngredientHash (buildIngredientList exItemsC2A) =
      generateIngredientHash (buildIngredientList exItemsC2B) ∧
    (generateIngredientHash (buildIngredientList exItemsC2A)).length = 64 ∧
    ∀ c ∈ (generateIngredientHash (buildIngredientList exItemsC2A)).data, c ∈ hexChars :=
  fingerprint_generator_deterministic exItemsC2A exItemsC2B (by
    intro s
    have hA : exItemsC2A.map (fun it => normalizeName it.name) = ["milk", "milk", "eggs"] := rfl
    have hB : exItemsC2B.map (fun it => normalizeName it.name) = ["eggs", "milk"] := rfl
    rw [hA, hB]
    simp only [List.mem_cons, List.not_mem_nil, or_false]
    tauto)

/-- C6 counterexample: an item whose name is blank after trimming does not
produce an empty ingredient list — the Set keeps one empty-string entry,
so the normalizer returns `[""]`, not `[]`. -/
theorem ingredient_normalizer_counterexample :
    buildIngredientList [⟨"item-1", "   ", "2026-10-12", "Dairy", "user-1"⟩] = [""] ∧
    ([""] : List String) ≠ [] :=
  ⟨rfl, by decide⟩

/-- C6 (amended): the Ingredient Normalizer trims and lowercases each
name, collapses duplicates, sorts by code unit, and returns the empty
sequence on empty input; names that are blank after trimming are kept as
one empty-string entry rather than removed. -/
theorem ingredient_normalizer_spec (items : List FoodItem) :
    (buildIngredientList items).Sorted strLe ∧
    (buildIngredientList items).Nodup ∧
    (∀ s, s ∈ buildIngredientList items ↔ ∃ it ∈ items, normalizeName it.name = s) ∧
    buildIngredientList [] = [] :=
  ⟨buildIngredientList_sorted items, buildIngredientList_nodup items,
   mem_buildIngredientList items, rfl⟩

/-- C7: a parsed provider list with more than three recipe objects is
truncated to exactly three by `slice(0, 3)`. -/
theorem provider_truncation (xs : List JsValue) (h : 3 < xs.length) :
    validateRecipes (JsValue.arr xs) = Except.ok ((xs.take 3).map coerceRecipe) ∧
    ((xs.take 3).map coerceRecipe).length = 3 := by
  constructor
  · have hne : xs.isEmpty = false := by
      cases xs with
      | nil => simp at h
      | cons a t => rfl
    simp [validateRecipes, JsValue.asArray, hne]
  · rw [List.length_map, List.length_take]
    omega

/-- Five parsed recipe objects, for the truncation witness. -/
def exParsedC7 : List JsValue :=
  [JsValue.obj [("title", JsValue.str "R1")],
   JsValue.obj [("title", JsValue.str "R2")],
   JsValue.obj [("title", JsValue.str "R3")],
   JsValue.obj [("title", JsValue.str "R4")],
   JsValue.obj [("title", JsValue.str "R5")]]

theorem provider_truncation_witness :
    3 < exParsedC7.length ∧
    validateRecipes (JsValue.arr exParsedC7) =
      Except.ok ((exParsedC7.take 3).map coerceRecipe) ∧
    ((exParsedC7.take 3).map coerceRecipe).length = 3 :=
  ⟨by decide, provider_truncation exParsedC7 (by decide)⟩

/-- C8: the adapter coerces missing fields instead of erroring — a missing
(`undefined`) title becomes the literal `Untitled Recipe`, a missing
description becomes the generic placeholder sentence, a missing or
non-array `steps` or `ingredients_used` becomes the empty list, and an
array field has every element stringified. -/
theorem provider_coercion (r : JsValue) :
    (r.get "title" = JsValue.undefined → (coerceRecipe r).title = "Untitled Recipe") ∧
    (r.get "description" = JsValue.undefined →
      (coerceRecipe r).description = "A quick recipe with your expiring ingredients.") ∧
    ((r.get "steps").asArray = none → (coerceRecipe r).steps = []) ∧
    (∀ xs, r.get "steps" = JsValue.arr xs → (coerceRecipe r).steps = xs.map jsToString) ∧
    ((r.get "ingredients_used").asArray = none → (coerceRecipe r).ingredients_used = []) ∧
    (∀ xs, r.get "ingredients_used" = JsValue.arr xs →
      (coerceRecipe r).ingredients_used = xs.map jsToString) := by
  refine ⟨?_, ?_, ?_, ?_, ?_, ?_⟩
  · intro h; simp [coerceRecipe, h, JsValue.truthy, jsToString]
  · intro h; simp [coerceRecipe, h, JsValue.truthy, jsToString]
  · intro h; simp [coerceRecipe, h]
  · intro xs h; simp [coerceRecipe, h, JsValue.asArray]
  · intro h; simp [coerceRecipe, h]
  · intro xs h; simp [coerceRecipe, h, JsValue.asArray]

theorem provider_coercion_witness :
    (coerceRecipe (JsValue.obj [])).title = "Untitled Recipe" ∧
    (coerceRecipe (JsValue.obj [])).description =
      "A quick recipe with your expiring ingredients." ∧
    (coerceRecipe (JsValue.obj [])).steps = [] ∧
    (coerceRecipe (JsValue.obj [])).ingredients_used = [] :=
  ⟨(provider_coercion (JsValue.obj [])).1 rfl,
   (provider_coercion (JsValue.obj [])).2.1 rfl,
   (provider_coercion (JsValue.obj [])).2.2.1 rfl,
   (provider_coercion (JsValue.obj [])).2.2.2.2.1 rfl⟩

/-- Four items and one recipe, for the payload-tag counterexample. -/
def exItemsC9 : List FoodItem :=
  [⟨"i1", "Milk", "2026-10-12", "Dairy", "u9"⟩,
   ⟨"i2", "Eggs", "2026-10-12", "Dairy", "u9"⟩,
   ⟨"i3", "Spinach", "2026-10-13", "Produce", "u9"⟩,
   ⟨"i4", "Yogurt", "2026-10-13", "Dairy", "u9"⟩]

def exRecipesC9 : List RecipeSuggestion :=
  [⟨"Omelette", "Quick egg dish.", ["Beat eggs", "Fry"], ["eggs", "milk"]⟩]

/-- C9 counterexample: the fallback payload does not carry a distinct
push `tag` — both the fallback and the normal recipe payload use the tag
`recipe-suggestion`, so the claimed distinct tag/category fails at the
tag field. -/
theorem fallback_payload_tag_counterexample :
    (buildFallbackPayload exItemsC9).tag =
      (buildNotificationPayload exRecipesC9 ["eggs", "milk"]).tag ∧
    (buildFallbackPayload exItemsC9).tag = "recipe-suggestion" :=
  ⟨rfl, rfl⟩

/-- C9 (amended): the fallback payload is distinguishable from the normal
payload only through its nested `data.type` (`recipe_suggestion_fallback`
against `recipe_suggestion`); the push `tag` field is identical on both.
Its body lists at most the first three item names, followed by an
`and N more` suffix exactly when more than three items are present. -/
theorem fallback_payload_spec (items : List FoodItem) (recipes : List RecipeSuggestion)
    (ingredients : List String) :
    (buildFallbackPayload items).dataType = "recipe_suggestion_fallback" ∧
    (buildNotificationPayload recipes ingredients).dataType = "recipe_suggestion" ∧
    (buildFallbackPayload items).dataType ≠
      (buildNotificationPayload recipes ingredients).dataType ∧
    (buildFallbackPayload items).tag = (buildNotificationPayload recipes ingredients).tag ∧
    (buildFallbackPayload items).body =
      String.intercalate ", " ((items.take 3).map (fun it => it.name)) ++
      (if 3 < items.length then " and " ++ toString (items.length - 3) ++ " more" else "") ++
      " are expiring soon. Check the app for ideas!" ∧
    ((items.take 3).map (fun it => it.name)).length ≤ 3 := by
  refine ⟨rfl, rfl, ?_, rfl, rfl, ?_⟩
  · intro h
    rw [show (buildFallbackPayload items).dataType = "recipe_suggestion_fallback" from rfl,
      show (buildNotificationPayload recipes ingredients).dataType = "recipe_suggestion"
        from rfl] at h
    exact absurd h (by decide)
  · rw [List.length_map, List.length_take]
    omega

/-- C10: a storage-level error on the cache read is indistinguishable
from a cache miss at the caller — `checkCache` answers `null` for both —
and the single-user pipeline regenerates through the provider instead of
failing the request. -/
theorem cache_error_miss_indistinguishable (res : CacheQueryResult)
    (herr : res.error.isSome = true) :
    checkCache res = none ∧
    checkCache res = checkCache ⟨none, none⟩ ∧
    ∀ (env : SingleEnv) (ai : AICallResult),
      env.cacheResult = res → env.aiResult = Except.ok ai →
      ∀ (items : List FoodItem) (u : String),
        env.authResult = some u → env.itemsQuery = Except.ok items →
        items.isEmpty = false → (buildIngredientList items).isEmpty = false →
        singleUserMode env =
          (SingleResponse.ok ai.recipes (buildIngredientList items) false none,
           ⟨[generateIngredientHash (buildIngredientList items)], 1,
            [generateIngredientHash (buildIngredientList items)]⟩) := by
  have hnone : checkCache res = none := by simp [checkCache, herr]
  refine ⟨hnone, by rw [hnone]; rfl, ?_⟩
  intro env ai hcache hai items u hauth hitems hne hing
  simp only [singleUserMode, hauth, hitems, hne, hing, hcache, hnone, hai,
    Bool.false_eq_true, if_false]

def exAiC10 : AICallResult :=
  ⟨[⟨"Milk toast", "Warm and simple.", ["Toast bread", "Warm milk"], ["milk"]⟩],
   10, 20, 30, 1500, "prompt"⟩

def exItemsC10 : List FoodItem := [⟨"item-1", "Milk", "2026-10-12", "Dairy", "user-1"⟩]

def exEnvC10 : SingleEnv :=
  { body := ⟨some "single", none, none⟩,
    authResult := some "user-1",
    today := 100,
    itemsQuery := Except.ok exItemsC10,
    cacheResult := ⟨none, some "storage failure"⟩,
    aiResult := Except.ok exAiC10,
    ledger := [] }

theorem cache_error_miss_indistinguishable_witness :
    exEnvC10.cacheResult.error.isSome = true ∧
    checkCache exEnvC10.cacheResult = none ∧
    singleUserMode exEnvC10 =
      (SingleResponse.ok exAiC10.recipes (buildIngredientList exItemsC10) false none,
       ⟨[generateIngredientHash (buildIngredientList exItemsC10)], 1,
        [generateIngredientHash (buildIngredientList exItemsC10)]⟩) :=
  ⟨rfl, (cache_error_miss_indistinguishable exEnvC10.cacheResult rfl).1,
   (cache_error_miss_indistinguishable exEnvC10.cacheResult rfl).2.2
     exEnvC10 exAiC10 rfl rfl exItemsC10 "user-1" rfl rfl rfl rfl⟩

def exAiC1 : AICallResult :=
  ⟨[⟨"Milk soup", "Simple.", ["Heat milk"], ["milk"]⟩], 10, 20, 30, 1500, "prompt"⟩

/-- Three ledger rows of category `recipe_suggestion_single` for this user
on the request day. The source never writes this category and never reads
the ledger in single mode; the rows stand for a user already at the
claimed daily limit. -/
def exLedgerC1 : List LedgerRow :=
  [⟨"user-1", "recipe_suggestion_single", none, "2026-10-11"⟩,
   ⟨"user-1", "recipe_suggestion_single", none, "2026-10-11"⟩,
   ⟨"user-1", "recipe_suggestion_single", none, "2026-10-11"⟩]

def exEnvC1 : SingleEnv :=
  { body := ⟨some "single", none, none⟩,
    authResult := some "user-1",
    today := 100,
    itemsQuery := Except.ok [⟨"item-1", "Milk", "2026-10-12", "Dairy", "user-1"⟩],
    cacheResult := ⟨none, none⟩,
    aiResult := Except.ok exAiC1,
    ledger := exLedgerC1 }

/-- C1: the single-user mode enforces no rate limit. The handler is
independent of the `notification_log` table, and a request by a user who
already holds three same-day `recipe_suggestion_single` rows is served
normally — the cache is consulted and the provider is called, with no
rate-limit rejection. -/
theorem single_mode_no_rate_limit :
    (∀ (env : SingleEnv) (l : List LedgerRow),
      singleUserMode { env with ledger := l } = singleUserMode env) ∧
    (exEnvC1.ledger.filter (fun row =>
      row.user_id == "user-1" && row.notification_type == "recipe_suggestion_single" &&
        row.sent_date == "2026-10-11")).length = 3 ∧
    (singleUserMode exEnvC1).1.isOk = true ∧
    (singleUserMode exEnvC1).2.cacheLookups.length = 1 ∧
    (singleUserMode exEnvC1).2.aiCalls = 1 := by
  refine ⟨?_, rfl, rfl, rfl, rfl⟩
  intro env l
  cases env
  rfl

def exBodyC5 : RequestBody := ⟨some "single", some ["item-42"], some 7⟩

/-- C5: the single-user item fetch ignores the request body. The query
the handler issues is the same for every body — in particular for a body
carrying an explicit item-identifier list and a seven-day window — and
always filters on the hard-coded window of today through today plus
three days; the handler as a whole is likewise independent of the body. -/
theorem single_mode_query_ignores_body :
    (∀ (u : String) (t : Nat) (b1 b2 : RequestBody),
      singleUserItemQuery u t b1 = singleUserItemQuery u t b2) ∧
    (∀ (env : SingleEnv) (b : RequestBody),
      singleUserMode { env with body := b } = singleUserMode env) ∧
    singleUserItemQuery "user-1" 100 exBodyC5 =
      { userId := "user-1", status := "active", minExpiry := 100, maxExpiry := 103,
        ascending := true } ∧
    exBodyC5.expiryDays = some 7 ∧ exBodyC5.itemIds = some ["item-42"] := by
  refine ⟨fun u t b1 b2 => rfl, ?_, rfl, rfl, rfl⟩
  intro env b
  cases env
  rfl

/-- C3: a user who already holds a `recipe_suggestion` ledger row with the
fingerprint of the current ingredient set is skipped entirely by the batch
sweep — no cache lookup, no AI call, no delivery, no ledger write, and no
metrics entry. -/
theorem batch_dedup_skip (env : BatchUserEnv)
    (h : ∃ row ∈ env.ledger, row.user_id = env.userId ∧
      row.notification_type = "recipe_suggestion" ∧
      row.ingredient_hash = some (generateIngredientHash (buildIngredientList env.items))) :
    processUser env = ([], emptyTrace) := by
  obtain ⟨row, hrow, h1, h2, h3⟩ := h
  have hpred : ledgerDedupPred env.userId
      (generateIngredientHash (buildIngredientList env.items)) row = true := by
    simp [ledgerDedupPred, h1, h2, h3]
  have hne : env.ledger.filter (ledgerDedupPred env.userId
      (generateIngredientHash (buildIngredientList env.items))) ≠ [] :=
    List.ne_nil_of_mem (List.mem_filter.mpr ⟨hrow, hpred⟩)
  have hfilter : (env.ledger.filter (ledgerDedupPred env.userId
      (generateIngredientHash (buildIngredientList env.items)))).isEmpty = false :=
    Bool.eq_false_iff.mpr (fun habs => hne (List.isEmpty_iff.mp habs))
  cases hp : env.profile with
  | none => simp [processUser, hp]
  | some prof =>
    by_cases hen : prof.notification_enabled = true
    · simp only [processUser, hp]
      rw [if_pos hen]
      split
      · rfl
      · split
        · rfl
        · simp [hfilter]
    · simp only [processUser, hp]
      rw [if_neg hen]

def exItemsC3 : List FoodItem := [⟨"item-1", "Milk", "2026-10-12", "Dairy", "user-7"⟩]

/-- A prior-sweep ledger row for the fingerprint of `exItemsC3`. -/
def exRowC3 : LedgerRow :=
  ⟨"user-7", "recipe_suggestion",
   some (generateIngredientHash (buildIngredientList exItemsC3)), "2026-10-10"⟩

def exEnvC3 : BatchUserEnv :=
  { userId := "user-7",
    items := exItemsC3,
    profile := some ⟨true, some "user-7@example.com"⟩,
    subscriptions := [⟨"https://push.example/ep7", "k", "a"⟩],
    ledger := [exRowC3],
    cacheResult := ⟨none, none⟩,
    aiResult := Except.error "should not be reached",
    pushOutcomes := [true],
    emailOutcome := false }

theorem batch_dedup_skip_witness : processUser exEnvC3 = ([], emptyTrace) :=
  batch_dedup_skip exEnvC3 ⟨exRowC3, by simp [exEnvC3], rfl, rfl, rfl⟩

def exEnvC4 : BatchUserEnv :=
  { userId := "user-1",
    items := [⟨"item-1", "Milk", "2026-10-12", "Dairy", "user-1"⟩],
    profile := some ⟨true, some "user-1@example.com"⟩,
    subscriptions := [⟨"https://push.example/ep1", "k", "a"⟩],
    ledger := [],
    cacheResult := ⟨none, none⟩,
    aiResult := Except.error "provider down",
    pushOutcomes := [true],
    emailOutcome := false }

/-- C4 counterexample: with an always-failing provider and a push
endpoint, the sweep makes exactly one fallback delivery and counts the
user in the `totalFallbacks` bucket, but `totalErrors` is zero — the
error counter deliberately excludes entries whose error starts with
`AI failed`, so the user is not reported in both buckets as claimed. -/
theorem batch_fallback_error_bucket_counterexample :
    exEnvC4.aiResult = Except.error "provider down" ∧
    exEnvC4.subscriptions ≠ [] ∧
    (processUser exEnvC4).2.deliveries = [Delivery.push (buildFallbackPayload exEnvC4.items)] ∧
    (processUser exEnvC4).2.ledgerInserts.length = 1 ∧
    (batchSummary (processUser exEnvC4).1).totalFallbacks = 1 ∧
    (batchSummary (processUser exEnvC4).1).totalErrors = 0 :=
  ⟨rfl, by decide, rfl, rfl, rfl, rfl⟩

/-- C4 (amended): when the provider call fails for a user with a push
endpoint, the sweep makes exactly one fallback delivery attempt (the
fallback push payload), writes a ledger row exactly when that delivery
reported success, records one metrics entry, continues with the next
user, and reports the user in the `fallback` bucket but not in the
`error` bucket, whose filter excludes AI-failure fallbacks. -/
theorem batch_ai_failure_fallback (env : BatchUserEnv) (prof : Profile) (errMsg : String)
    (hprof : env.profile = some prof)
    (hen : prof.notification_enabled = true)
    (hpush : env.subscriptions.isEmpty = false)
    (hing : (buildIngredientList env.items).isEmpty = false)
    (hdedup : (env.ledger.filter (ledgerDedupPred env.userId
      (generateIngredientHash (buildIngredientList env.items)))).isEmpty = true)
    (hcache : checkCache env.cacheResult = none)
    (hai : env.aiResult = Except.error errMsg) :
    (processUser env).2.deliveries = [Delivery.push (buildFallbackPayload env.items)] ∧
    (processUser env).2.aiCalls = 1 ∧
    (processUser env).2.ledgerInserts =
      (if 0 < pushSuccessCount env.subscriptions env.pushOutcomes
       then [mkLedgerInsert env (generateIngredientHash (buildIngredientList env.items))]
       else []) ∧
    (processUser env).1 =
      [{ userId := env.userId, ingredientCount := (buildIngredientList env.items).length,
         cacheHit := false, notificationMethod := some "fallback_push",
         error := some ("AI failed, sent fallback: " ++ errMsg) }] ∧
    (batchSummary (processUser env).1).totalFallbacks = 1 ∧
    (batchSummary (processUser env).1).totalErrors = 0 ∧
    ∀ rest, batchMetrics (env :: rest) = (processUser env).1 ++ batchMetrics rest := by
  have hshape : processUser env =
      fallbackDelivery env prof (buildIngredientList env.items)
        (generateIngredientHash (buildIngredientList env.items)) errMsg := by
    simp only [processUser, hprof]
    rw [if_pos hen]
    simp only [hpush, hing, hdedup, hcache, hai, Bool.not_false, Bool.true_and,
      Bool.false_and, Bool.and_self, Bool.not_true, Bool.false_eq_true, if_false, if_true]
  have hfb : fallbackDelivery env prof (buildIngredientList env.items)
      (generateIngredientHash (buildIngredientList env.items)) errMsg =
      ([{ userId := env.userId, ingredientCount := (buildIngredientList env.items).length,
          cacheHit := false, notificationMethod := some "fallback_push",
          error := some ("AI failed, sent fallback: " ++ errMsg) }],
       { cacheLookups := [generateIngredientHash (buildIngredientList env.items)],
         aiCalls := 1, cacheStores := [],
         deliveries := [Delivery.push (buildFallbackPayload env.items)],
         ledgerInserts :=
           if 0 < pushSuccessCount env.subscriptions env.pushOutcomes
           then [mkLedgerInsert env (generateIngredientHash (buildIngredientList env.items))]
           else [] }) := by
    simp only [fallbackDelivery, hpush, Bool.not_false, if_true, decide_eq_true_eq]
  rw [hshape, hfb]
  refine ⟨rfl, rfl, rfl, rfl, rfl, ?_, ?_⟩
  · simp only [batchSummary, List.filter_cons, List.filter_nil, aiFailedPrefix,
      Bool.not_true, Bool.false_eq_true, if_false, List.length_nil]
  · intro rest
    rw [← hfb, ← hshape]
    rfl

theorem batch_ai_failure_fallback_witness :
    (processUser exEnvC4).2.deliveries = [Delivery.push (buildFallbackPayload exEnvC4.items)] ∧
    (processUser exEnvC4).2.aiCalls = 1 ∧
    (processUser exEnvC4).2.ledgerInserts =
      (if 0 < pushSuccessCount exEnvC4.subscriptions exEnvC4.pushOutcomes
       then [mkLedgerInsert exEnvC4 (generateIngredientHash (buildIngredientList exEnvC4.items))]
       else []) ∧
    (processUser exEnvC4).1 =
      [{ userId := exEnvC4.userId,
         ingredientCount := (buildIngredientList exEnvC4.items).length,
         cacheHit := false, notificationMethod := some "fallback_push",
         error := some ("AI failed, sent fallback: " ++ "provider down") }] ∧
    (batchSummary (processUser exEnvC4).1).totalFallbacks = 1 ∧
    (batchSummary (processUser exEnvC4).1).totalErrors = 0 ∧
    ∀ rest, batchMetrics (exEnvC4 :: rest) = (processUser exEnvC4).1 ++ batchMetrics rest :=
  batch_ai_failure_fallback exEnvC4 ⟨true, some "user-1@example.com"⟩ "provider down"
    rfl rfl rfl rfl rfl rfl rfl
